import Mathlib

/-!
# Verification of the boardgame-scheduler session model

Shallow embedding of the core of `src/backend/server.js` (the authoritative
server) together with the display helpers of the frontend variant
`src/unnamed/part_002`.  JavaScript values that the relevant code paths
inspect dynamically (strings, numbers, `undefined`) are modelled by `JSVal`;
the request handlers become pure functions from an input, an external-fetch
oracle, and a store to a result and an updated store.
-/

/-- A JavaScript value as it occurs in the modelled code paths: `undefined`,
a string, or a number.  Numbers appearing in the modelled code are integers
(playing times, thresholds); decimal strings such as "2.50" are handled by
numeric coercion (`toNumber`). -/
inductive JSVal where
  | undef : JSVal
  | str : String → JSVal
  | num : Int → JSVal
deriving DecidableEq, Repr

/-- JavaScript truthiness: `undefined`, `""` and `0` are falsy. -/
def JSVal.truthy : JSVal → Bool
  | .undef => false
  | .str s => s ≠ ""
  | .num n => n ≠ 0

def digitsToNat (ds : List Char) : Nat :=
  ds.foldl (fun a c => a * 10 + (c.toNat - 48)) 0

/-- An exact finite JavaScript number, kept as an unreduced fraction
`num / den` (`den > 0` by construction) so that comparisons stay
kernel-computable.  NaN is represented outside this type (as `none`). -/
structure JsNum where
  num : Int
  den : Nat
deriving DecidableEq, Repr

def JsNum.ofInt (n : Int) : JsNum := ⟨n, 1⟩

/-- Exact order on finite JavaScript numbers, by cross-multiplication. -/
def JsNum.lt (a b : JsNum) : Bool :=
  a.num * (b.den : Int) < b.num * (a.den : Int)

def JsNum.eqv (a b : JsNum) : Bool :=
  a.num * (b.den : Int) = b.num * (a.den : Int)

/-- Models `Number(string)` coercion for the string shapes the code meets: optional
sign, decimal digits with an optional fraction part; surrounding whitespace
is trimmed and the empty (or all-whitespace) string coerces to 0.  Any other
shape (e.g. "N/A") yields NaN, modelled as `none`.  Exponent and hex forms
are not modelled; no modelled code path produces them. -/
def parseJsNumber (s : String) : Option JsNum :=
  let cs := ((s.data.dropWhile Char.isWhitespace).reverse.dropWhile
    Char.isWhitespace).reverse
  if cs.isEmpty then some (JsNum.ofInt 0) else
  let signed : Bool × List Char :=
    match cs with
    | c :: rest =>
      if c = Char.ofNat 45 then (true, rest)
      else if c = Char.ofNat 43 then (false, rest)
      else (false, cs)
    | [] => (false, cs)
  let neg := signed.1
  let body := signed.2
  let ip := body.takeWhile Char.isDigit
  let rest := body.dropWhile Char.isDigit
  let mag : Option JsNum :=
    match rest with
    | [] => if ip.isEmpty then none else some ⟨(digitsToNat ip : Int), 1⟩
    | c :: rest2 =>
      if c = Char.ofNat 46 then
        let fp := rest2.takeWhile Char.isDigit
        let rest3 := rest2.dropWhile Char.isDigit
        if rest3.isEmpty then
          if ip.isEmpty && fp.isEmpty then none
          else some ⟨(digitsToNat ip : Int) * (10 ^ fp.length : Nat) +
            (digitsToNat fp : Int), 10 ^ fp.length⟩
        else none
      else none
  mag.map (fun q => if neg then ⟨-q.num, q.den⟩ else q)

/-- Numeric coercion of a `JSVal`; `none` models NaN. -/
def JSVal.toNumber : JSVal → Option JsNum
  | .undef => none
  | .str s => parseJsNumber s
  | .num n => some (JsNum.ofInt n)

/-- Evaluates `v < n` for a numeric literal `n`: coerce `v` to a number; every
comparison against NaN is false. -/
def jsLt (v : JSVal) (n : Int) : Bool :=
  match v.toNumber with
  | some q => q.lt (JsNum.ofInt n)
  | none => false

/-- Template-literal stringification `${v}` of the value kinds modelled. -/
def JSVal.jsToString : JSVal → String
  | .undef => "undefined"
  | .str s => s
  | .num n => toString n

/-- JavaScript loose equality `==` restricted to the modelled value kinds:
same-type comparison is structural, string/number comparison coerces the
string, `undefined` equals only `undefined`. -/
def jsEqLoose : JSVal → JSVal → Bool
  | .undef, .undef => true
  | .undef, _ => false
  | _, .undef => false
  | .str a, .str b => a = b
  | .num a, .num b => a = b
  | a, b =>
    match a.toNumber, b.toNumber with
    | some x, some y => x.eqv y
    | _, _ => false

/-- Lift an optional string field (`doc?.field`) to a `JSVal`. -/
def jsOfOptStr : Option String → JSVal
  | none => .undef
  | some s => .str s

/-! ## Display derivation (backend, `src/backend/server.js` lines 62-79) -/

/-- Embeds `getComplexityCategory` (server.js:62-67): three `<` threshold tests,
falling through to `'Heavy'`. -/
def getComplexityCategory (complexityValue : JSVal) : String :=
  if jsLt complexityValue 2 then "Light"
  else if jsLt complexityValue 3 then "Medium"
  else if jsLt complexityValue 4 then "Medium-Heavy"
  else "Heavy"

/-- Embeds `getComplexity` (server.js:69-73): falsiness guard, then
`` `${getComplexityCategory(v)} (${v})` ``. -/
def getComplexity (complexityValue : JSVal) : String :=
  if !complexityValue.truthy then "N/A"
  else getComplexityCategory complexityValue ++ " (" ++
    complexityValue.jsToString ++ ")"

/-- Embeds `getPlayingTime` (server.js:75-79): "N/A" when either argument is falsy,
else `` `${min}-${max}` `` (no collapse of equal values, no unit suffix). -/
def getPlayingTime (minPlayingTime maxPlayingTime : JSVal) : String :=
  if !minPlayingTime.truthy || !maxPlayingTime.truthy then "N/A"
  else minPlayingTime.jsToString ++ "-" ++ maxPlayingTime.jsToString

namespace Part002

/-- Embeds the `getPlayingTime` of the frontend variant `src/unnamed/part_002`
lines 913-923: falsiness guard, double-"N/A" guard, collapse to
`` `${min} min` `` when `min == maxPlayingTime` (loose equality), else
`` `${min}-${max} min` ``. -/
def getPlayingTime (minPlayingTime maxPlayingTime : JSVal) : String :=
  if !minPlayingTime.truthy || !maxPlayingTime.truthy then "N/A"
  else if minPlayingTime = .str "N/A" && maxPlayingTime = .str "N/A" then
    "N/A"
  else if jsEqLoose minPlayingTime maxPlayingTime then
    minPlayingTime.jsToString ++ " min"
  else
    minPlayingTime.jsToString ++ "-" ++ maxPlayingTime.jsToString ++ " min"

end Part002

/-! ## Derived external links -/

def hexDigitChar (n : Nat) : Char :=
  if n < 10 then Char.ofNat (48 + n) else Char.ofNat (55 + n)

/-- UTF-8 bytes of one character. -/
def utf8Bytes (c : Char) : List Nat :=
  let n := c.toNat
  if n < 128 then [n]
  else if n < 2048 then [192 + n / 64, 128 + n % 64]
  else if n < 65536 then
    [224 + n / 4096, 128 + (n / 64) % 64, 128 + n % 64]
  else
    [240 + n / 262144, 128 + (n / 4096) % 64, 128 + (n / 64) % 64,
      128 + n % 64]

def percentEncodeByte (b : Nat) : String :=
  String.mk [Char.ofNat 37, hexDigitChar (b / 16), hexDigitChar (b % 16)]

/-- Characters `encodeURIComponent` leaves unescaped: alphanumerics and
minus, underscore, dot, bang, tilde, star, apostrophe, parentheses. -/
def uriUnescaped (c : Char) : Bool :=
  c.isAlphanum || c = Char.ofNat 45 || c = Char.ofNat 95 ||
  c = Char.ofNat 46 || c = Char.ofNat 33 || c = Char.ofNat 126 ||
  c = Char.ofNat 42 || c = Char.ofNat 39 || c = Char.ofNat 40 ||
  c = Char.ofNat 41

def encodeURIComponent (s : String) : String :=
  s.data.foldl (fun acc c =>
    if uriUnescaped c then acc.push c
    else acc ++ String.join ((utf8Bytes c).map percentEncodeByte)) ""

def bggLink (id : String) : String :=
  "https://boardgamegeek.com/boardgame/" ++ id

def ytSearchLink (nm : String) : String :=
  "https://www.youtube.com/results?search_query=" ++
    encodeURIComponent (nm ++ " how to play board game")

/-! ## Data model (schema of server.js:19-54) -/

/-- A game-info record embedded in a session document (the `gameData`
subdocument and the `flexibleGames` entries).  All fields are schema
Strings and may be unset (`none`, i.e. undefined / null). -/
structure GameInfo where
  id : Option String := none
  name : Option String := none
  minPlayingTime : Option String := none
  maxPlayingTime : Option String := none
  complexity : Option String := none
  link : Option String := none
  thumbnail : Option String := none
  image : Option String := none
  youtubeLink : Option String := none
deriving DecidableEq, Repr

/-- An entry of the request body's `flexibleGames` list: a BGG selection
(with an id) or a custom free-text game (name only, no id). -/
structure FlexGameIn where
  id : Option String := none
  name : Option String := none
deriving DecidableEq, Repr

/-- JS truthiness of the entry's id: `if (!game.id) continue` skips
entries whose id is missing or the empty string. -/
def FlexGameIn.hasId (g : FlexGameIn) : Bool := (jsOfOptStr g.id).truthy

/-- A session document as the create handler builds it (`new Table(data)`),
with `none` for absent or `delete`d fields.  The date is a millisecond
timestamp; `none` models a missing or unparseable (Invalid) date. -/
structure Table where
  date : Option Int := none
  time : Option String := none
  location : Option String := none
  gameName : Option String := none
  gameId : Option String := none
  playersNeeded : Option Int := none
  organizerJoins : Bool := false
  participants : List String := []
  gameData : Option GameInfo := none
  isFlexible : Bool := false
  flexibleGames : Option (List GameInfo) := none
deriving DecidableEq, Repr

/-- The request body of `POST /api/table` (same shape as the document,
except that `flexibleGames` entries are user selections, not yet
enriched). -/
structure CreateInput where
  date : Option Int := none
  time : Option String := none
  location : Option String := none
  gameName : Option String := none
  gameId : Option String := none
  gameData : Option GameInfo := none
  playersNeeded : Option Int := none
  organizerJoins : Bool := false
  participants : List String := []
  isFlexible : Bool := false
  flexibleGames : Option (List FlexGameIn) := none
deriving DecidableEq, Repr

/-! ## Create handler (server.js:122-238) -/

/-- The degraded placeholder pushed by the catch branch of flexible-mode
enrichment (server.js:180-190): the user's original id and name, "N/A" for
the playing-time and complexity fields, null thumbnail and image, and the
deterministically derived links. -/
def degradedFlexGame (g : FlexGameIn) : GameInfo :=
  { id := g.id,
    name := g.name,
    minPlayingTime := some "N/A",
    maxPlayingTime := some "N/A",
    complexity := some "N/A",
    link := some (bggLink (jsOfOptStr g.id).jsToString),
    thumbnail := none,
    image := none,
    youtubeLink := some (ytSearchLink (jsOfOptStr g.name).jsToString) }

/-- The enrichment loop of flexible-mode creation (server.js:146-192):
entries without a truthy id are skipped (`continue`); for the rest the
external fetch either succeeds — the oracle returns the normalized record —
or throws, in which case the degraded placeholder is pushed.  The
rate-limiting sleep between calls has no effect on the resulting list. -/
def enrichFlexible (fetch : String → Option GameInfo) :
    List FlexGameIn → List GameInfo
  | [] => []
  | g :: rest =>
    if g.hasId then
      (match fetch (jsOfOptStr g.id).jsToString with
       | some info => info
       | none => degradedFlexGame g) :: enrichFlexible fetch rest
    else enrichFlexible fetch rest

/-- Mongoose save-time validation of the schema's required fields
(server.js:19-25): Date and Number `required` fail when the value is unset
(or uncastable); String `required` fails when unset or empty. -/
def requiredOk (t : Table) : Bool :=
  t.date.isSome && (jsOfOptStr t.time).truthy &&
    (jsOfOptStr t.location).truthy && t.playersNeeded.isSome

/-- Outcome of the create handler as observable by the client: `ok` is the
200 `{id}` response, `badRequest` is `res.status(400).json({error})`, and
`uncaught` models a promise rejection that escapes the async handler (no
response is produced by the handler's own code, nothing is stored). -/
inductive CreateResult where
  | ok : CreateResult
  | badRequest : String → CreateResult
  | uncaught : CreateResult
deriving DecidableEq, Repr

/-- Models `new Table(data); await newTable.save()` (server.js:235-237).
There is no try/catch around the save, so a validation failure rejects the
handler's promise: nothing is stored and no response is sent. -/
def saveTable (t : Table) (store : List Table) :
    CreateResult × List Table :=
  if requiredOk t then (.ok, t :: store) else (.uncaught, store)

def msPerDay : Int := 86400000

/-- The scheduling-window test (server.js:124-130):
`new Date(data.date) > oneMonthFromNow`.  A missing or unparseable date is
an Invalid Date (NaN) and compares false. -/
def dateTooFar (now : Int) (date : Option Int) : Bool :=
  match date with
  | some d => decide (d > now + 30 * msPerDay)
  | none => false

/-- Single-mode enrichment (server.js:204-232): when `data.gameId` is
truthy the external fetch either succeeds and overwrites `data.gameData`,
or throws and is swallowed by the catch, leaving `gameData` exactly as it
came in the body (typically absent). -/
def singleModeGameData (fetch : String → Option GameInfo)
    (input : CreateInput) : Option GameInfo :=
  if (jsOfOptStr input.gameId).truthy then
    match fetch (jsOfOptStr input.gameId).jsToString with
    | some info => some info
    | none => input.gameData
  else input.gameData

/-- Embeds the create handler `app.post('/api/table')` (server.js:122-238).
`now` is the creation instant in milliseconds, `fetch` the external
detail-fetch oracle (`none` = network failure for that id), `store` the
persisted session documents (most recent first). -/
def createTable (now : Int) (fetch : String → Option GameInfo)
    (input : CreateInput) (store : List Table) :
    CreateResult × List Table :=
  if dateTooFar now input.date then
    (.badRequest "You cannot schedule games more than 30 days in advance.",
      store)
  else if input.isFlexible then
    match input.flexibleGames with
    | none =>
      (.badRequest "Please select at least one game for flexible mode.",
        store)
    | some gs =>
      if gs.length < 1 then
        (.badRequest "Please select at least one game for flexible mode.",
          store)
      else
        saveTable
          { date := input.date, time := input.time,
            location := input.location,
            gameName := none, gameId := none, gameData := none,
            playersNeeded := input.playersNeeded,
            organizerJoins := input.organizerJoins,
            participants := input.participants,
            isFlexible := input.isFlexible,
            flexibleGames := some (enrichFlexible fetch gs) } store
  else
    saveTable
      { date := input.date, time := input.time,
        location := input.location,
        gameName := input.gameName, gameId := input.gameId,
        gameData := singleModeGameData fetch input,
        playersNeeded := input.playersNeeded,
        organizerJoins := input.organizerJoins,
        participants := input.participants,
        isFlexible := input.isFlexible,
        flexibleGames := none } store

/-! ## Join and remove handlers -/

inductive JoinResult where
  | ok : Table → JoinResult
  | badRequest : String → JoinResult
  | notFound : JoinResult
deriving DecidableEq, Repr

/-- Embeds the join handler `app.post('/api/table/:id/join')`
(server.js:248-260).  `found` is the `Table.findById` result; the second
component is the stored document after the call (`none` only when the
session does not exist).  The guard is
`table.participants.length < table.playersNeeded && name`. -/
def joinTable (name : Option String) (found : Option Table) :
    JoinResult × Option Table :=
  match found with
  | none => (.notFound, none)
  | some t =>
    if (match t.playersNeeded with
        | some n => decide ((t.participants.length : Int) < n)
        | none => false) && (jsOfOptStr name).truthy then
      let t2 := { t with participants := t.participants ++ [name.getD ""] }
      (.ok t2, some t2)
    else (.badRequest "Table full or missing name", some t)

inductive RemoveResult where
  | ok : Table → RemoveResult
  | notFound : RemoveResult
deriving DecidableEq, Repr

/-- Embeds the remove handler `app.post('/api/table/:id/remove')`
(server.js:316-334): `table.participants.filter(p => p !== name)` drops
every participant strictly equal to `name` and the document is saved; the
session itself is never deleted. -/
def removeParticipant (name : Option String) (found : Option Table) :
    RemoveResult × Option Table :=
  match found with
  | none => (.notFound, none)
  | some t =>
    let t2 := { t with
      participants := t.participants.filter (fun p => decide (some p ≠ name)) }
    (.ok t2, some t2)

/-- Embeds the single-game branch of the preview description
(server.js:279): duration and complexity derived from the optional
`gameData` fields. -/
def previewDescriptionSingle (t : Table) : String :=
  "Duration: " ++
    getPlayingTime (jsOfOptStr (t.gameData.bind GameInfo.minPlayingTime))
      (jsOfOptStr (t.gameData.bind GameInfo.maxPlayingTime)) ++
  " min; Complexity: " ++
    getComplexity (jsOfOptStr (t.gameData.bind GameInfo.complexity))

/-- Required-field presence of a creation input, as the schema checks it at
save time (the created document copies these fields verbatim). -/
def requiredInputOk (input : CreateInput) : Bool :=
  input.date.isSome && (jsOfOptStr input.time).truthy &&
    (jsOfOptStr input.location).truthy && input.playersNeeded.isSome

/-! ## Claim theorems -/

/-- C1: For every stored session, a join call when the participant count
has reached `playersNeeded` fails with the 400 "Table full or missing
name" response and leaves the participants list unchanged; and whenever
`participants.length ≤ playersNeeded` held before the call it still holds
for the stored document afterwards — the capacity invariant is preserved
by join. -/
theorem join_capacity_invariant (t : Table) (name : Option String) (n : Int)
    (hpn : t.playersNeeded = some n) :
    (n ≤ (t.participants.length : Int) →
      joinTable name (some t) =
        (.badRequest "Table full or missing name", some t)) ∧
    ((t.participants.length : Int) ≤ n →
      ∀ t2, (joinTable name (some t)).2 = some t2 →
        (t2.participants.length : Int) ≤ n) := by
  constructor
  · intro hfull
    simp [joinTable, hpn, not_lt.mpr hfull]
  · intro hle t2 ht2
    simp only [joinTable, hpn] at ht2
    by_cases hlt : (t.participants.length : Int) < n
    · by_cases hnm : (jsOfOptStr name).truthy
      · simp [hlt, hnm] at ht2
        subst ht2
        simp [List.length_append]
        omega
      · simp [hnm] at ht2
        subst ht2
        exact hle
    · simp [hlt] at ht2
      subst ht2
      exact hle

/-- Witness for C1 at a full one-seat session. -/
theorem join_capacity_invariant_witness :
    (joinTable (some "Eve")
        (some { playersNeeded := some 1, participants := ["Bob"] }) =
      (.badRequest "Table full or missing name",
        some { playersNeeded := some 1, participants := ["Bob"] })) ∧
    ∀ t2, (joinTable (some "Eve")
        (some { playersNeeded := some 1, participants := ["Bob"] })).2 =
          some t2 → (t2.participants.length : Int) ≤ 1 := by
  have h := join_capacity_invariant
    { playersNeeded := some 1, participants := ["Bob"] } (some "Eve") 1 rfl
  exact ⟨h.1 (by decide), h.2 (by decide)⟩

/-- C3 counterexample: the claim fails on the code — joining with the
whitespace-only name " " on a session with free capacity succeeds (200)
and appends " " to the participants list, because the handler only tests
JS truthiness of the name and a whitespace-only string is truthy. -/
theorem join_whitespace_name_accepted :
    joinTable (some " ") (some { playersNeeded := some 2 }) =
      (.ok { playersNeeded := some 2, participants := [" "] },
        some { playersNeeded := some 2, participants := [" "] }) := by
  decide

/-- C3 amended: a join whose name is missing or the empty string always
fails with the 400 response and leaves the participants unchanged; a
whitespace-only name is truthy and is not rejected. -/
theorem join_blank_name_rejected (t : Table) (name : Option String)
    (h : (jsOfOptStr name).truthy = false) :
    joinTable name (some t) =
      (.badRequest "Table full or missing name", some t) := by
  simp [joinTable, h]

/-- Witness for the amended C3 at the empty-string name. -/
theorem join_blank_name_rejected_witness :
    joinTable (some "") (some { playersNeeded := some 2 }) =
      (.badRequest "Table full or missing name",
        some { playersNeeded := some 2 }) :=
  join_blank_name_rejected _ _ (by decide)

/-- C7: removeParticipant on any stored session returns 200 with the
participants filtered to exactly the subsequence not equal to the name
(every exact-match occurrence removed), the session document still stored
— never deleted; when the name is not present the list is unchanged. -/
theorem remove_all_matching_participants (t : Table) (name : String) :
    (removeParticipant (some name) (some t) =
      (.ok { t with participants :=
          t.participants.filter (fun p => decide (p ≠ name)) },
        some { t with participants :=
          t.participants.filter (fun p => decide (p ≠ name)) })) ∧
    (name ∉ t.participants →
      t.participants.filter (fun p => decide (p ≠ name)) =
        t.participants) := by
  constructor
  · have hfun : (fun p => decide (some p ≠ some name)) =
        (fun p : String => decide (p ≠ name)) := by
      funext p
      simp
    simp [removeParticipant, hfun]
  · intro hnm
    rw [List.filter_eq_self]
    intro a ha
    simp only [decide_eq_true_eq]
    intro he
    exact hnm (he ▸ ha)

/-- Witness for C7: removing "Ann" removes both of its occurrences, and
filtering by the absent name "Zoe" changes nothing. -/
theorem remove_all_matching_participants_witness :
    removeParticipant (some "Ann")
        (some { participants := ["Ann", "Bob", "Ann"] }) =
      (.ok { participants := ["Bob"] }, some { participants := ["Bob"] }) ∧
    ["Ann"].filter (fun p => decide (p ≠ "Zoe")) = ["Ann"] := by
  constructor
  · exact (remove_all_matching_participants
      { participants := ["Ann", "Bob", "Ann"] } "Ann").1.trans (by decide)
  · exact (remove_all_matching_participants
      { participants := ["Ann"] } "Zoe").2 (by decide)

/-- C5: any creation input whose date is more than 30 days after the
creation instant is rejected with the 400 scheduling-window error before
anything is fetched or saved: the store is unchanged. -/
theorem create_far_date_rejected (now : Int)
    (fetch : String → Option GameInfo) (input : CreateInput)
    (store : List Table) (d : Int) (hd : input.date = some d)
    (hfar : now + 30 * msPerDay < d) :
    createTable now fetch input store =
      (.badRequest
        "You cannot schedule games more than 30 days in advance.",
        store) := by
  simp [createTable, dateTooFar, hd, hfar]

/-- Witness for C5: a date 31 days out is rejected and nothing is stored. -/
theorem create_far_date_rejected_witness :
    createTable 0 (fun _ => none)
      { date := some (31 * 86400000), time := some "18:00",
        location := some "Cafe", playersNeeded := some 4 } [] =
      (.badRequest
        "You cannot schedule games more than 30 days in advance.", []) :=
  create_far_date_rejected 0 _ _ [] (31 * 86400000) rfl (by decide)

/-- C9 counterexample: the backend playing-time helper does not collapse
equal bounds — getPlayingTime(30,30) is "30-30", not "30 min" (its caller
appends the unit, the helper itself never does). -/
theorem playing_time_equal_bounds_not_collapsed :
    getPlayingTime (.num 30) (.num 30) = "30-30" ∧
    getPlayingTime (.num 30) (.num 30) ≠ "30 min" := by decide

/-- C9 amended: the three-case rule — "N/A" when a bound is missing,
"<min> min" when the bounds coincide, else "<min>-<max> min" — is the
part_002 frontend variant's helper; the backend helper of server.js
returns "N/A" when a bound is missing and otherwise always "<min>-<max>",
with no collapsing of equal bounds and no unit suffix. -/
theorem playing_time_label_variants :
    Part002.getPlayingTime (.num 30) (.num 30) = "30 min" ∧
    Part002.getPlayingTime (.num 30) (.num 60) = "30-60 min" ∧
    Part002.getPlayingTime .undef (.num 60) = "N/A" ∧
    getPlayingTime (.num 30) (.num 30) = "30-30" ∧
    getPlayingTime (.num 30) (.num 60) = "30-60" ∧
    getPlayingTime .undef (.num 60) = "N/A" := by decide

/-- C10: the complexity label's missing-value guard only tests falsiness,
so the truthy sentinel "N/A" is not caught: every value with no numeric
interpretation (all NaN comparisons false) is categorized 'Heavy',
getComplexity("N/A") is "Heavy (N/A)", and the preview description of a
session whose gameData carries the degraded complexity sentinel shows
"Complexity: Heavy (N/A)". -/
theorem complexity_na_labelled_heavy :
    getComplexity (.str "N/A") = "Heavy (N/A)" ∧
    (∀ v : JSVal, v.toNumber = none → getComplexityCategory v = "Heavy") ∧
    previewDescriptionSingle
        { gameData := some { complexity := some "N/A" } } =
      "Duration: N/A min; Complexity: Heavy (N/A)" := by
  refine ⟨by decide, ?_, by decide⟩
  intro v hv
  simp [getComplexityCategory, jsLt, hv]

/-- Witness for C10 at the sentinel string. -/
theorem complexity_na_labelled_heavy_witness :
    getComplexityCategory (.str "N/A") = "Heavy" :=
  complexity_na_labelled_heavy.2.1 (.str "N/A") (by decide)

/-- C2 counterexample: the claim fails on the code — creating a flexible
session with the two custom (id-less) games Catan and Risk succeeds but
stores an empty flexibleGames list: the enrichment loop's
`if (!game.id) continue` drops custom entries instead of passing them
through verbatim. -/
theorem create_flexible_custom_games_dropped :
    createTable 0 (fun _ => none)
      { date := some 86400000, time := some "18:00",
        location := some "Cafe", playersNeeded := some 1,
        isFlexible := true,
        flexibleGames := some [{ name := some "Catan" },
          { name := some "Risk" }] } [] =
      (.ok, [{ date := some 86400000, time := some "18:00",
               location := some "Cafe", playersNeeded := some 1,
               isFlexible := true, flexibleGames := some [] }]) := by decide

/-- C2 amended: flexibleGames entries without a truthy external id are
skipped by the enrichment loop and omitted from the stored session — they
are not stored at all; a flexible session created from custom entries only
is stored with an empty flexibleGames list. -/
theorem flexible_enrichment_skips_custom_entries
    (fetch : String → Option GameInfo) (g : FlexGameIn)
    (gs rest : List FlexGameIn) (hg : g.hasId = false) :
    enrichFlexible fetch (g :: rest) = enrichFlexible fetch rest ∧
    ((∀ x ∈ gs, x.hasId = false) → enrichFlexible fetch gs = []) := by
  constructor
  · simp [enrichFlexible, hg]
  · induction gs with
    | nil => exact fun _ => rfl
    | cons a tl ih =>
      intro hall
      have ha := hall a (List.mem_cons_self a tl)
      simp only [enrichFlexible, ha, Bool.false_eq_true, if_false]
      exact ih fun x hx => hall x (List.mem_cons_of_mem a hx)

/-- Witness for the amended C2 at the Catan/Risk custom entries. -/
theorem flexible_enrichment_skips_custom_entries_witness :
    enrichFlexible (fun _ => none)
      [{ name := some "Catan" }, { name := some "Risk" }] = [] :=
  (flexible_enrichment_skips_custom_entries (fun _ => none)
    { name := some "Catan" }
    [{ name := some "Catan" }, { name := some "Risk" }] []
    (by decide)).2 (by decide)

/-- C4 counterexample: the claim fails on the code — playersNeeded below 1
is not validated: an input with playersNeeded 0 and all other fields
present is accepted with 200 and the session is persisted. -/
theorem create_accepts_zero_players :
    createTable 0 (fun _ => none)
      { date := some 86400000, time := some "18:00",
        location := some "Cafe", playersNeeded := some 0 } [] =
      (.ok, [{ date := some 86400000, time := some "18:00",
               location := some "Cafe", playersNeeded := some 0 }]) := by decide

/-- C4 amended: an input missing date, time, location, or playersNeeded
(string fields: missing or empty) never creates a session — the save-time
validation rejects — but the handler has no field-validation 400 of its
own: apart from the date-window and flexible-list 400s the failure escapes
as an unhandled rejection; and playersNeeded < 1 is not validated at all
(see the counterexample). -/
theorem create_missing_required_never_persists
    (now : Int) (fetch : String → Option GameInfo) (input : CreateInput)
    (store : List Table)
    (h : input.date = none ∨ (jsOfOptStr input.time).truthy = false ∨
      (jsOfOptStr input.location).truthy = false ∨
      input.playersNeeded = none) :
    (createTable now fetch input store).1 ≠ .ok ∧
    (createTable now fetch input store).2 = store := by
  unfold createTable
  by_cases h1 : dateTooFar now input.date = true
  · rw [if_pos h1]
    exact ⟨by simp, rfl⟩
  · rw [if_neg h1]
    by_cases h2 : input.isFlexible = true
    · rw [if_pos h2]
      cases hfg : input.flexibleGames with
      | none => exact ⟨by simp, rfl⟩
      | some gs =>
        simp only
        by_cases h3 : gs.length < 1
        · rw [if_pos h3]
          exact ⟨by simp, rfl⟩
        · rw [if_neg h3]
          rcases h with h | h | h | h <;> simp [saveTable, requiredOk, h]
    · rw [if_neg h2]
      rcases h with h | h | h | h <;> simp [saveTable, requiredOk, h]

/-- Witness for the amended C4: a single-mode input missing its date gets
no success response and nothing is stored. -/
theorem create_missing_required_never_persists_witness :
    (createTable 0 (fun _ => none)
      { time := some "18:00", location := some "Cafe",
        playersNeeded := some 4 } []).1 ≠ .ok ∧
    (createTable 0 (fun _ => none)
      { time := some "18:00", location := some "Cafe",
        playersNeeded := some 4 } []).2 = [] :=
  create_missing_required_never_persists 0 _ _ [] (Or.inl rfl)

/-- C8: every document the create handler persists carries the fields of
one mode only — in flexible mode the single-mode fields gameName, gameId
and gameData are stripped (`delete`d), in single mode flexibleGames is
stripped — so a stored session never holds both field sets. -/
theorem create_mode_mutual_exclusion
    (now : Int) (fetch : String → Option GameInfo) (input : CreateInput)
    (store : List Table) (d : Table)
    (hsaved : (createTable now fetch input store).2 = d :: store) :
    (if input.isFlexible then
        d.gameName = none ∧ d.gameId = none ∧ d.gameData = none
      else d.flexibleGames = none) ∧
    ¬ ((d.gameName ≠ none ∨ d.gameId ≠ none ∨ d.gameData ≠ none) ∧
      d.flexibleGames ≠ none) := by
  have hgrow : ∀ doc : Table,
      (saveTable doc store).2 = d :: store → d = doc := by
    intro doc hs
    unfold saveTable at hs
    by_cases hr : requiredOk doc = true
    · rw [if_pos hr] at hs
      injection hs with h1 h2
      exact h1.symm
    · rw [if_neg hr] at hs
      exfalso
      have hlen := congrArg List.length hs
      simp at hlen
  unfold createTable at hsaved
  by_cases h1 : dateTooFar now input.date = true
  · rw [if_pos h1] at hsaved
    exfalso
    have hlen := congrArg List.length hsaved
    simp at hlen
  · rw [if_neg h1] at hsaved
    by_cases h2 : input.isFlexible = true
    · rw [if_pos h2] at hsaved
      cases hfg : input.flexibleGames with
      | none =>
        rw [hfg] at hsaved
        exfalso
        have hlen := congrArg List.length hsaved
        simp at hlen
      | some gs =>
        rw [hfg] at hsaved
        simp only at hsaved
        by_cases h3 : gs.length < 1
        · rw [if_pos h3] at hsaved
          exfalso
          have hlen := congrArg List.length hsaved
          simp at hlen
        · rw [if_neg h3] at hsaved
          have hd := hgrow _ hsaved
          subst hd
          simp [h2]
    · rw [if_neg h2] at hsaved
      have hd := hgrow _ hsaved
      subst hd
      simp [h2]

/-- Witness for C8: a persisted flexible creation has no single-mode
fields, hence never both field sets. -/
theorem create_mode_mutual_exclusion_witness :
    ¬ ((({ date := some 86400000, time := some "18:00",
           location := some "Cafe", playersNeeded := some 2,
           isFlexible := true, flexibleGames := some [] } :
          Table).gameName ≠ none ∨
        (({ date := some 86400000, time := some "18:00",
            location := some "Cafe", playersNeeded := some 2,
            isFlexible := true, flexibleGames := some [] } :
          Table)).gameId ≠ none ∨
        (({ date := some 86400000, time := some "18:00",
            location := some "Cafe", playersNeeded := some 2,
            isFlexible := true, flexibleGames := some [] } :
          Table)).gameData ≠ none) ∧
      (({ date := some 86400000, time := some "18:00",
          location := some "Cafe", playersNeeded := some 2,
          isFlexible := true, flexibleGames := some [] } :
        Table)).flexibleGames ≠ none) :=
  (create_mode_mutual_exclusion 0 (fun _ => none)
    { date := some 86400000, time := some "18:00",
      location := some "Cafe", playersNeeded := some 2,
      isFlexible := true,
      flexibleGames := some [{ name := some "Catan" }] } []
    { date := some 86400000, time := some "18:00",
      location := some "Cafe", playersNeeded := some 2,
      isFlexible := true, flexibleGames := some [] }
    (by decide)).2

/-- C6: an external-fetch failure never aborts session creation.  Single
mode: with every fetch failing, a valid input still creates the session,
its gameData left exactly as the body supplied it (absent when absent).
Flexible mode: a game whose fetch fails degrades independently to the
placeholder built from the user's original id and name, with "N/A"
playing-time and complexity fields, while the remaining games are still
processed by the same loop; creation then succeeds whatever the oracle
answered for each game. -/
theorem create_survives_fetch_failure
    (now : Int) (store : List Table) (fetch : String → Option GameInfo)
    (input input2 : CreateInput) (g : FlexGameIn)
    (rest : List FlexGameIn) :
    (input.isFlexible = false → dateTooFar now input.date = false →
      requiredInputOk input = true →
      createTable now (fun _ => none) input store =
        (.ok, { date := input.date, time := input.time,
                location := input.location, gameName := input.gameName,
                gameId := input.gameId, gameData := input.gameData,
                playersNeeded := input.playersNeeded,
                organizerJoins := input.organizerJoins,
                participants := input.participants,
                isFlexible := input.isFlexible,
                flexibleGames := none } :: store)) ∧
    (g.hasId = true → fetch (jsOfOptStr g.id).jsToString = none →
      enrichFlexible fetch (g :: rest) =
        degradedFlexGame g :: enrichFlexible fetch rest) ∧
    ((degradedFlexGame g).id = g.id ∧ (degradedFlexGame g).name = g.name ∧
      (degradedFlexGame g).minPlayingTime = some "N/A" ∧
      (degradedFlexGame g).maxPlayingTime = some "N/A" ∧
      (degradedFlexGame g).complexity = some "N/A") ∧
    (input2.isFlexible = true → dateTooFar now input2.date = false →
      requiredInputOk input2 = true →
      ∀ gs, input2.flexibleGames = some gs → gs ≠ [] →
        (createTable now fetch input2 store).1 = .ok) := by
  refine ⟨?_, ?_, ⟨rfl, rfl, rfl, rfl, rfl⟩, ?_⟩
  · intro hfx hdate hreq
    have hgd : singleModeGameData (fun _ => none) input =
        input.gameData := by
      unfold singleModeGameData
      split <;> rfl
    simp only [requiredInputOk, Bool.and_eq_true] at hreq
    unfold createTable
    rw [hdate]
    simp only [Bool.false_eq_true, if_false, hfx, saveTable, hgd,
      requiredOk, hreq.1.1.1, hreq.1.1.2, hreq.1.2, hreq.2,
      Bool.and_self, if_true]
  · intro hid hf
    simp [enrichFlexible, hid, hf]
  · intro hfx hdate hreq gs hgs hne
    have h3 : ¬ gs.length < 1 := by
      have := List.length_pos.mpr hne
      omega
    simp only [requiredInputOk, Bool.and_eq_true] at hreq
    unfold createTable
    rw [hdate]
    simp only [Bool.false_eq_true, if_false, hfx, if_true, hgs]
    rw [if_neg h3]
    simp only [saveTable, requiredOk, hreq.1.1.1, hreq.1.1.2, hreq.1.2,
      hreq.2, Bool.and_self, if_true]

/-- Witness for C6: with every fetch failing, a single-mode creation still
succeeds with the body's (absent) gameData, and a flexible enrichment
degrades the failed first game to its placeholder while processing the
second; the flexible creation succeeds. -/
theorem create_survives_fetch_failure_witness :
    createTable 0 (fun _ => none)
      { date := some 86400000, time := some "19:00",
        location := some "Pub", gameName := some "Catan",
        gameId := some "13", playersNeeded := some 4 } [] =
      (.ok, [{ date := some 86400000, time := some "19:00",
               location := some "Pub", gameName := some "Catan",
               gameId := some "13", playersNeeded := some 4 }]) ∧
    enrichFlexible (fun _ => none)
      [{ id := some "13", name := some "Catan" },
        { id := some "174430", name := some "Gloomhaven" }] =
      degradedFlexGame { id := some "13", name := some "Catan" } ::
        enrichFlexible (fun _ => none)
          [{ id := some "174430", name := some "Gloomhaven" }] ∧
    (degradedFlexGame { id := some "13", name := some "Catan" }).id =
      some "13" ∧
    (degradedFlexGame { id := some "13", name := some "Catan" }).name =
      some "Catan" ∧
    (degradedFlexGame
      { id := some "13", name := some "Catan" }).complexity = some "N/A" ∧
    (createTable 0 (fun _ => none)
      { date := some 86400000, time := some "18:00",
        location := some "Cafe", playersNeeded := some 2,
        isFlexible := true,
        flexibleGames := some [{ id := some "13", name := some "Catan" },
          { id := some "174430", name := some "Gloomhaven" }] } []).1 =
      .ok := by
  have h := create_survives_fetch_failure 0 [] (fun _ => none)
    { date := some 86400000, time := some "19:00",
      location := some "Pub", gameName := some "Catan",
      gameId := some "13", playersNeeded := some 4 }
    { date := some 86400000, time := some "18:00",
      location := some "Cafe", playersNeeded := some 2,
      isFlexible := true,
      flexibleGames := some [{ id := some "13", name := some "Catan" },
        { id := some "174430", name := some "Gloomhaven" }] }
    { id := some "13", name := some "Catan" }
    [{ id := some "174430", name := some "Gloomhaven" }]
  exact ⟨h.1 rfl (by decide) (by decide), h.2.1 rfl rfl,
    h.2.2.1.1, h.2.2.1.2.1, h.2.2.1.2.2.2.2,
    h.2.2.2 rfl (by decide) (by decide) _ rfl (by decide)⟩
